import Mathlib

/-!
Verification of the CoreWM `Widget` component
(src/src/packages/default/CoreWM/widget.js).

Shallow embedding: JavaScript numbers appearing in this module are
modelled as rationals (ℚ) — every operation the widget performs on them
(addition, subtraction, halving, min/max, comparison) is exact on the
dyadic values that actually occur, so ℚ is a faithful model here.
Nullable numeric fields are `Option ℚ` with `none` playing JavaScript
`null`; JavaScript's `null → 0` coercion in arithmetic contexts is the
function `toNum`, and JavaScript truthiness of a nullable number is
`truthy`.  Stateful methods become functions `WidgetState → WidgetState`;
DOM style application becomes a pure function from the position record to
a style record; timers (`setTimeout`/`clearTimeout`) become explicit
deadline fields and an explicit event-list semantics.
-/

namespace CoreWMWidget

/-- JavaScript `ToNumber` coercion restricted to the values that reach the
widget's arithmetic: a number stays itself and `null` becomes `0`. -/
def toNum (v : Option ℚ) : ℚ := v.getD 0

/-- JavaScript truthiness of a nullable number: `null` and `0` are falsy,
every other number is truthy. -/
def truthy (v : Option ℚ) : Bool :=
  match v with
  | none => false
  | some x => decide (x ≠ 0)

/-- JavaScript truthiness of a nullable animation-frame handle. -/
def truthyNat (v : Option Nat) : Bool :=
  match v with
  | none => false
  | some n => decide (n ≠ 0)

/-- JavaScript division where the dividend is a nonzero number: `none`
models the IEEE `Infinity` produced by division by zero (the only use in
this module is `1000 / fps`). -/
def jsDiv (a b : ℚ) : Option ℚ :=
  if b = 0 then none else some (a / b)

/-- The `_position` record: four nullable numeric fields. -/
structure Position where
  left : Option ℚ
  top : Option ℚ
  right : Option ℚ
  bottom : Option ℚ
deriving Repr, DecidableEq

/-- The `_dimension` record. -/
structure Dimension where
  width : ℚ
  height : ℚ
deriving Repr, DecidableEq

/-- The `{left, top}` objects passed to `_setPosition` and returned by
`_getNormalizedPosition` (fields may hold `null`). -/
structure PosObj where
  left : Option ℚ
  top : Option ℚ
deriving Repr, DecidableEq

/-- The `{width, height}` objects passed to `_setDimension`. -/
structure DimObj where
  width : ℚ
  height : ℚ
deriving Repr, DecidableEq

/-- The `viewBox` option: `false`, `true`, or an `"x y w h"` string. -/
inductive ViewBox where
  | off : ViewBox
  | on : ViewBox
  | str : String → ViewBox
deriving Repr, DecidableEq

/-- The merged `_options` record. -/
structure Options where
  aspect : ℚ
  width : ℚ
  height : ℚ
  minWidth : ℚ
  minHeight : ℚ
  maxHeight : ℚ
  maxWidth : ℚ
  left : ℚ
  right : ℚ
  top : ℚ
  bottom : ℚ
  canvas : Bool
  resizable : Bool
  viewBox : ViewBox
  frequency : ℚ
deriving Repr, DecidableEq

/-- The `DEFAULT_OPTIONS` record of widget.js (MIN_WIDTH = MIN_HEIGHT = 64). -/
def DEFAULT_OPTIONS : Options :=
  { aspect := 0
    width := 100
    height := 100
    minWidth := 64
    minHeight := 64
    maxHeight := 500
    maxWidth := 500
    left := -1
    right := -1
    top := 0
    bottom := 0
    canvas := false
    resizable := false
    viewBox := ViewBox.off
    frequency := 2 }

/-- A caller-supplied options object: any subset of the option fields
may be present; `Utils.mergeObject` lays it over `DEFAULT_OPTIONS`. -/
structure OptionsPatch where
  aspect : Option ℚ := none
  width : Option ℚ := none
  height : Option ℚ := none
  minWidth : Option ℚ := none
  minHeight : Option ℚ := none
  maxHeight : Option ℚ := none
  maxWidth : Option ℚ := none
  left : Option ℚ := none
  right : Option ℚ := none
  top : Option ℚ := none
  bottom : Option ℚ := none
  canvas : Option Bool := none
  resizable : Option Bool := none
  viewBox : Option ViewBox := none
  frequency : Option ℚ := none
deriving Repr

/-- Models `Utils.mergeObject(DEFAULT_OPTIONS, options || \x7b\x7d)`. -/
def mergeOptions (patch : OptionsPatch) : Options :=
  { aspect := patch.aspect.getD DEFAULT_OPTIONS.aspect
    width := patch.width.getD DEFAULT_OPTIONS.width
    height := patch.height.getD DEFAULT_OPTIONS.height
    minWidth := patch.minWidth.getD DEFAULT_OPTIONS.minWidth
    minHeight := patch.minHeight.getD DEFAULT_OPTIONS.minHeight
    maxHeight := patch.maxHeight.getD DEFAULT_OPTIONS.maxHeight
    maxWidth := patch.maxWidth.getD DEFAULT_OPTIONS.maxWidth
    left := patch.left.getD DEFAULT_OPTIONS.left
    right := patch.right.getD DEFAULT_OPTIONS.right
    top := patch.top.getD DEFAULT_OPTIONS.top
    bottom := patch.bottom.getD DEFAULT_OPTIONS.bottom
    canvas := patch.canvas.getD DEFAULT_OPTIONS.canvas
    resizable := patch.resizable.getD DEFAULT_OPTIONS.resizable
    viewBox := patch.viewBox.getD DEFAULT_OPTIONS.viewBox
    frequency := patch.frequency.getD DEFAULT_OPTIONS.frequency }

/-- The settings handle contents, as read at construction: an outer
`none` means the key is absent (the option default is used); the inner
value is the stored JavaScript value, itself possibly `null` for anchor
fields. -/
structure SettingsStore where
  left : Option (Option ℚ) := none
  top : Option (Option ℚ) := none
  right : Option (Option ℚ) := none
  bottom : Option (Option ℚ) := none
  width : Option ℚ := none
  height : Option ℚ := none
deriving Repr

/-- The full widget instance state.  DOM node references are modelled by
presence booleans (`true` = the node reference is non-null); the pending
save/resize timers by their absolute fire deadline (`none` = no pending
timer); `envelope`/`active` by whether the corresponding CSS class is
set. -/
structure WidgetState where
  position : Position
  dimension : Dimension
  options : Options
  windowWidth : ℚ
  windowHeight : ℚ
  isManipulating : Bool
  requestId : Option Nat
  saveTimeout : Option ℚ
  resizeTimeout : Option ℚ
  element : Bool
  resize : Bool
  canvas : Bool
  context : Bool
  envelope : Bool
  active : Bool
deriving Repr

/-- The `Widget` constructor, after option merging and the `viewBox`
rewrite: position and dimension come from the settings handle with the
merged options as per-field defaults. -/
def construct (patch : OptionsPatch) (settings : SettingsStore)
    (windowWidth windowHeight : ℚ) : WidgetState :=
  let merged := mergeOptions patch
  let opts : Options :=
    if merged.viewBox ≠ ViewBox.off then
      { merged with
        resizable := true
        viewBox :=
          if merged.viewBox = ViewBox.on then
            ViewBox.str ("0 0 " ++ toString merged.width ++ " " ++ toString merged.height)
          else merged.viewBox }
    else merged
  { position :=
      { left := (settings.left).getD (some opts.left)
        top := (settings.top).getD (some opts.top)
        right := (settings.right).getD (some opts.right)
        bottom := (settings.bottom).getD (some opts.bottom) }
    dimension :=
      { height := (settings.height).getD opts.height
        width := (settings.width).getD opts.width }
    options := opts
    windowWidth := windowWidth
    windowHeight := windowHeight
    isManipulating := false
    requestId := none
    saveTimeout := none
    resizeTimeout := none
    element := false
    resize := false
    canvas := false
    context := false
    envelope := false
    active := false }

/-- Source `Widget.prototype._isPastHalf(dir, obj)`: whether the anchor point
plus half the corresponding dimension has reached the viewport midpoint
on the given axis.  `obj = obj || this._position` and JavaScript's
`null + x = x` coercion are both modelled. -/
def isPastHalf (st : WidgetState) (dir : String) (objArg : Option PosObj) : Bool :=
  let obj := objArg.getD { left := st.position.left, top := st.position.top }
  let hleft := st.windowWidth / 2
  let aleft := toNum obj.left + st.dimension.width / 2
  if dir = "horizontal" then
    decide (aleft ≥ hleft)
  else
    let htop := st.windowHeight / 2
    let atop := toNum obj.top + st.dimension.height / 2
    decide (atop ≥ htop)

/-- Source `Widget.prototype._setPosition(obj, stick)`.  `objArg = none` models
the JavaScript call `_setPosition(null, ...)`, in which case the current
position is cloned.  The trailing `_updatePosition()` DOM write is the
pure function `updatePosition` below. -/
def setPosition (st : WidgetState) (objArg : Option PosObj) (stick : Bool) :
    WidgetState :=
  let obj := objArg.getD { left := st.position.left, top := st.position.top }
  let p1 : Position := { left := obj.left, top := obj.top, right := none, bottom := none }
  let p2 :=
    if stick then
      let pv :=
        if isPastHalf st "vertical" (some obj) then
          { p1 with
            top := none
            bottom := some (st.windowHeight - st.dimension.height - toNum obj.top) }
        else p1
      if isPastHalf st "horizontal" (some obj) then
        { pv with
          left := none
          right := some (st.windowWidth - st.dimension.width - toNum obj.left) }
      else pv
    else p1
  { st with position := p2 }

/-- Source `Widget.prototype._setDimension(obj)`: clamp each axis with
`Math.min(Math.max(v, min), max)` and store. -/
def setDimension (st : WidgetState) (obj : DimObj) : WidgetState :=
  let o := st.options
  let w := min (max obj.width o.minWidth) o.maxWidth
  let h := min (max obj.height o.minHeight) o.maxHeight
  { st with dimension := { width := w, height := h } }

/-- A CSS position value written by `_updatePosition`: either the
literal string `auto`, or `String(v) + 'px'` where `v` may be `null`
(JavaScript would render the string `nullpx`). -/
inductive StyleVal where
  | auto : StyleVal
  | px : Option ℚ → StyleVal
deriving Repr, DecidableEq

/-- The four inline style fields set by `_updatePosition`. -/
structure ElementStyle where
  left : StyleVal
  right : StyleVal
  top : StyleVal
  bottom : StyleVal
deriving Repr, DecidableEq

/-- Source `Widget.prototype._updatePosition()` as a pure function from the
position record to the element style it writes: a non-null `right` wins
over `left` (`left` is styled `auto`), a non-null `bottom` wins over
`top`. -/
def updatePosition (p : Position) : ElementStyle :=
  { left := if p.right.isSome then StyleVal.auto else StyleVal.px p.left
    right := if p.right.isSome then StyleVal.px p.right else StyleVal.auto
    top := if p.bottom.isSome then StyleVal.auto else StyleVal.px p.top
    bottom := if p.bottom.isSome then StyleVal.px p.bottom else StyleVal.auto }

/-- Source `Widget.prototype._getNormalizedPosition()`: resolve a truthy `right`
or `bottom` into an absolute `left`/`top`; a falsy one (null, but also 0)
leaves the raw stored near-edge field. -/
def getNormalizedPosition (st : WidgetState) : PosObj :=
  let left :=
    if truthy st.position.right then
      some (st.windowWidth - toNum st.position.right - st.dimension.width)
    else st.position.left
  let top :=
    if truthy st.position.bottom then
      some (st.windowHeight - toNum st.position.bottom - st.dimension.height)
    else st.position.top
  { left := left, top := top }

/-- Source `Widget.prototype._getDimension()` (a copy). -/
def getDimension (st : WidgetState) : Dimension := st.dimension

/-- Source `Widget.prototype._getPosition()` (a copy). -/
def getPosition (st : WidgetState) : Position := st.position

/-- Source `Widget.prototype._showEnvelope()`: no-op when the element is gone. -/
def showEnvelope (st : WidgetState) : WidgetState :=
  if !st.element then st else { st with envelope := true }

/-- Source `Widget.prototype._hideEnvelope()`: no-op when the element is gone or
a drag is in progress. -/
def hideEnvelope (st : WidgetState) : WidgetState :=
  if !st.element || st.isManipulating then st else { st with envelope := false }

/-- A point `\x7bx, y\x7d` as delivered by the pointer-event helper. -/
structure Point where
  x : ℚ
  y : ℚ
deriving Repr, DecidableEq

/-- The per-drag closure state captured by `bindWidgetEvents`' inner
`_mouseDown`: the down point `start`, and the `position`/`dimension`
snapshots re-read from the instance at pointer-down. -/
structure DragSession where
  start : Point
  position : PosObj
  dimension : Dimension
deriving Repr

/-- The snapshot taken at the top of `_mouseDown`:
`start = pos`, `position = instance._getNormalizedPosition()`,
`dimension = instance._getDimension()`. -/
def mouseDownSession (st : WidgetState) (pos : Point) : DragSession :=
  { start := pos
    position := getNormalizedPosition st
    dimension := getDimension st }

/-- The dynamically-shaped `obj` built inside the `mousemove` handler:
a `\x7bleft, top\x7d` record for a move, a `\x7bwidth, height\x7d`
record for a resize. -/
inductive MoveObj where
  | move : PosObj → MoveObj
  | resize : DimObj → MoveObj
deriving Repr, DecidableEq

/-- The `obj` computed by the `mousemove:modifywidget` handler from the
drag session and the current pointer point (widget.js lines 82-90):
`dx`/`dy` are deltas from the down point; a move proposes
`position + delta`; a resize proposes `dimension.width + dx` for the
width in both aspect branches, and `dimension.height + dx` when
`options.aspect` is truthy, `dimension.height + dy` otherwise. -/
def mouseMoveObj (st : WidgetState) (sess : DragSession) (pos : Point)
    (action : String) : MoveObj :=
  let dx := pos.x - sess.start.x
  let dy := pos.y - sess.start.y
  if action = "move" then
    MoveObj.move
      { left := some (toNum sess.position.left + dx)
        top := some (toNum sess.position.top + dy) }
  else
    MoveObj.resize
      { width :=
          if st.options.aspect ≠ 0 then sess.dimension.width + dx
          else sess.dimension.width + dx
        height :=
          if st.options.aspect ≠ 0 then sess.dimension.height + dx
          else sess.dimension.height + dy }

/-- Source `Widget.prototype._onMouseDown(ev, pos, action)`: mark the element
active; on a resize, temporarily rewrite the position into its
normalized absolute form (no stick). -/
def onMouseDown (st : WidgetState) (action : String) : WidgetState :=
  let st1 := { st with active := true }
  if action = "resize" then
    setPosition st1 (some (getNormalizedPosition st1)) false
  else st1

/-- Source `Widget.prototype._onMouseMove(ev, obj, action)`: set the
manipulating flag, then either stick-apply the position (move) or clamp
and apply the dimension (resize). -/
def onMouseMove (st : WidgetState) (obj : MoveObj) : WidgetState :=
  let st1 := { st with isManipulating := true }
  match obj with
  | MoveObj.move o => setPosition st1 (some o) true
  | MoveObj.resize o => setDimension st1 o

/-- Source `Widget.prototype._onMouseUp(ev, pos, action)` at absolute time
`now`: clear the manipulating flag and the resize-settle timer, drop the
active class, force-hide the envelope, re-stick the position after a
resize, and (re)arm the 500 ms save debounce timer. -/
def onMouseUp (st : WidgetState) (now : ℚ) (action : String) : WidgetState :=
  let st1 := { st with isManipulating := false, resizeTimeout := none, active := false }
  let st2 := hideEnvelope st1
  let st3 := if action = "resize" then setPosition st2 none true else st2
  { st3 with saveTimeout := some (now + 500) }

/-- The record `Widget.prototype._saveOptions` passes to
`settings.set(null, opts, true)`. -/
structure SaveRecord where
  width : ℚ
  height : ℚ
  left : Option ℚ
  top : Option ℚ
  right : Option ℚ
  bottom : Option ℚ
deriving Repr, DecidableEq

/-- Source `Widget.prototype._saveOptions()`: the written record, taken field
by field from the current dimension and position. -/
def saveOptions (st : WidgetState) : SaveRecord :=
  { width := st.dimension.width
    height := st.dimension.height
    left := st.position.left
    top := st.position.top
    right := st.position.right
    bottom := st.position.bottom }

/-- All six fields of a save record are numeric (non-null). -/
def allNumeric (r : SaveRecord) : Bool :=
  r.left.isSome && r.top.isSome && r.right.isSome && r.bottom.isSome

/-- Debounce semantics of the save timer across a sequence of
pointer-ups.  Each list entry `(t, st)` is a pointer-up at absolute time
`t` that left the widget in state `st`; `_onMouseUp` clears any pending
timer and schedules `_saveOptions` at `t + 500`, so the scheduled write
fires only if the next pointer-up does not come strictly earlier than
its deadline (a later pointer-up clears the still-pending timer first).
The result lists the settings writes as `(fire time, written record)`.
The input list is taken in increasing time order. -/
def debounceWrites : List (ℚ × WidgetState) → List (ℚ × SaveRecord)
  | [] => []
  | [(t, st)] => [(t + 500, saveOptions st)]
  | (t1, st1) :: (t2, st2) :: rest =>
    (if t1 + 500 ≤ t2 then [(t1 + 500, saveOptions st1)] else [])
      ++ debounceWrites ((t2, st2) :: rest)

/-- Result of `Widget.prototype.destroy()`: the torn-down state, plus
whether `window.cancelAnimationFrame` was invoked. -/
structure DestroyResult where
  state : WidgetState
  cancelledFrame : Bool
deriving Repr

/-- Source `Widget.prototype.destroy()`: unbind the handlers, clear the pending
save timer (`clearTimeout` returns undefined, modelled as `none`),
cancel the animation frame if `_requestId` is truthy, null the request
id, and null the canvas/resize/element/context references.  Every step
is a plain assignment or a guarded call, so the function is total: a
second call on the already-cleared state goes through the same
assignments. -/
def destroy (st : WidgetState) : DestroyResult :=
  { state :=
      { st with
        saveTimeout := none
        requestId := none
        canvas := false
        resize := false
        element := false
        context := false }
    cancelledFrame := truthyNat st.requestId }

/-- The assignment `var fps = Math.min(this._options.frequency, 1)` in `_inited`. -/
def initedFps (opts : Options) : ℚ := min opts.frequency 1

/-- The assignment `fpsInterval = 1000 / fps` in `_inited`; `none` is the `Infinity`
produced when `fps` is 0. -/
def initedFpsInterval (opts : Options) : Option ℚ :=
  jsDiv 1000 (initedFps opts)

/-- The guard `elapsed > fpsInterval` of `animate()`: with an infinite
interval the comparison is always false, so `onRender` never runs. -/
def animateFires (fpsInterval : Option ℚ) (thenT now : ℚ) : Bool :=
  match fpsInterval with
  | none => false
  | some i => decide (now - thenT > i)

/-- JavaScript `%` for the nonnegative operands `animate()` feeds it. -/
def jsMod (a b : ℚ) : ℚ := a - b * (⌊a / b⌋ : ℚ)

/-- One pass of the `animate()` body at time `now` with baseline
`thenT`: when the elapsed time exceeds the interval, the baseline
becomes `now - (elapsed % fpsInterval)` and `onRender` runs (second
component `true`). -/
def animateStep (fpsInterval : Option ℚ) (thenT now : ℚ) : ℚ × Bool :=
  if animateFires fpsInterval thenT now then
    match fpsInterval with
    | some i => (now - jsMod (now - thenT) i, true)
    | none => (thenT, false)
  else (thenT, false)

/-- Exactly one of `\x7bleft, right\x7d` and exactly one of
`\x7btop, bottom\x7d` is non-null. -/
def exactlyOneAnchorPerAxis (p : Position) : Bool :=
  (p.left.isSome ^^ p.right.isSome) && (p.top.isSome ^^ p.bottom.isSome)

/-- A convenience state builder for concrete scenarios (fields the
geometry functions do not read get inert values). -/
def mkState (p : Position) (d : Dimension) (ww wh : ℚ) : WidgetState :=
  { position := p
    dimension := d
    options := DEFAULT_OPTIONS
    windowWidth := ww
    windowHeight := wh
    isManipulating := false
    requestId := none
    saveTimeout := none
    resizeTimeout := none
    element := true
    resize := true
    canvas := false
    context := false
    envelope := false
    active := false }

section Lemmas

lemma isPastHalf_horizontal_eq (st : WidgetState) (obj : PosObj) :
    isPastHalf st "horizontal" (some obj)
      = decide (toNum obj.left + st.dimension.width / 2 ≥ st.windowWidth / 2) := rfl

lemma isPastHalf_vertical_eq (st : WidgetState) (obj : PosObj) :
    isPastHalf st "vertical" (some obj)
      = decide (toNum obj.top + st.dimension.height / 2 ≥ st.windowHeight / 2) := rfl

/-- Closed form of the position stored by `_setPosition(obj, true)`. -/
lemma setPosition_stick_eq (st : WidgetState) (objArg : Option PosObj) :
    (setPosition st objArg true).position =
      (fun obj =>
        ({ left := if toNum obj.left + st.dimension.width / 2 ≥ st.windowWidth / 2
                   then none else obj.left
           top := if toNum obj.top + st.dimension.height / 2 ≥ st.windowHeight / 2
                  then none else obj.top
           right := if toNum obj.left + st.dimension.width / 2 ≥ st.windowWidth / 2
                    then some (st.windowWidth - st.dimension.width - toNum obj.left)
                    else none
           bottom := if toNum obj.top + st.dimension.height / 2 ≥ st.windowHeight / 2
                     then some (st.windowHeight - st.dimension.height - toNum obj.top)
                     else none } : Position))
        (objArg.getD { left := st.position.left, top := st.position.top }) := by
  simp only [setPosition, isPastHalf_vertical_eq, isPastHalf_horizontal_eq,
    decide_eq_true_eq]
  split_ifs <;> rfl

end Lemmas

/-- C1.  `_setPosition(obj, stick=true)` handles each axis
independently: when `obj.left + width/2 ≥ windowWidth/2` the stored
position becomes `right = windowWidth - width - obj.left` with `left`
null, otherwise `left = obj.left` with `right` null; analogously for
top/bottom with the heights.  In particular, with viewport 1024×768,
dimension 200×150, `obj.left = 600`, `obj.top = 100`, the result is
`right = 224`, `left = null`, `top = 100`, `bottom = null`. -/
theorem c1_setPosition_stick_per_axis :
    (∀ (st : WidgetState) (l t : ℚ),
      (setPosition st (some { left := some l, top := some t }) true).position =
        { left := if l + st.dimension.width / 2 ≥ st.windowWidth / 2
                  then none else some l
          top := if t + st.dimension.height / 2 ≥ st.windowHeight / 2
                 then none else some t
          right := if l + st.dimension.width / 2 ≥ st.windowWidth / 2
                   then some (st.windowWidth - st.dimension.width - l) else none
          bottom := if t + st.dimension.height / 2 ≥ st.windowHeight / 2
                    then some (st.windowHeight - st.dimension.height - t)
                    else none }) ∧
    (setPosition
        (mkState { left := some 100, top := some 100, right := none, bottom := none }
          { width := 200, height := 150 } 1024 768)
        (some { left := some 600, top := some 100 }) true).position =
      { left := none, top := some 100, right := some 224, bottom := none } := by
  constructor
  · intro st l t
    rw [setPosition_stick_eq]
    rfl
  · rw [setPosition_stick_eq]
    norm_num [mkState, toNum]

/-- C3 counterexample.  The call `_setPosition(null, true)` on a widget
whose stored position is `left = null, right = 0` (reachable: a widget
flush with the right edge whose position was normalized at resize start,
since `_getNormalizedPosition` does not resolve a falsy `right`) leaves
BOTH `left` and `right` null, so it is not true that exactly one of them
is non-null after every stick call. -/
theorem c3_counterexample :
    exactlyOneAnchorPerAxis
      (setPosition
        (mkState { left := none, top := some 100, right := some 0, bottom := none }
          { width := 200, height := 150 } 1024 768)
        none true).position = false := by
  rw [setPosition_stick_eq]
  norm_num [mkState, toNum, exactlyOneAnchorPerAxis]

/-- C3 (amended).  Immediately after a call to `_setPosition(obj,
stick=true)` whose effective argument (the passed object, or the cloned
current position when the argument is null) has non-null `left` and
`top`, exactly one of `left`/`right` and exactly one of `top`/`bottom`
is non-null. -/
theorem c3_exactly_one_anchor (st : WidgetState) (objArg : Option PosObj)
    (hl : (objArg.getD { left := st.position.left, top := st.position.top }).left.isSome)
    (ht : (objArg.getD { left := st.position.left, top := st.position.top }).top.isSome) :
    exactlyOneAnchorPerAxis (setPosition st objArg true).position = true := by
  rw [setPosition_stick_eq]
  rcases h : objArg.getD { left := st.position.left, top := st.position.top } with ⟨l, t⟩
  rw [h] at hl ht
  rcases l with _ | l
  · simp at hl
  rcases t with _ | t
  · simp at ht
  simp only [exactlyOneAnchorPerAxis]
  split_ifs <;> simp

/-- C3 witness. -/
theorem c3_exactly_one_anchor_witness :
    exactlyOneAnchorPerAxis
      (setPosition
        (mkState { left := some 100, top := some 100, right := none, bottom := none }
          { width := 200, height := 150 } 1024 768)
        (some { left := some 600, top := some 100 }) true).position = true :=
  c3_exactly_one_anchor
    (mkState { left := some 100, top := some 100, right := none, bottom := none }
      { width := 200, height := 150 } 1024 768)
    (some { left := some 600, top := some 100 }) (by decide) (by decide)

/-- C4.  `_setDimension` clamps each axis with
`Math.min(Math.max(v, min), max)`, so whenever the configured bounds
satisfy `min ≤ max` per axis, the stored dimension lies in
`[minWidth, maxWidth] × [minHeight, maxHeight]` regardless of the
input magnitude. -/
theorem c4_setDimension_clamped (st : WidgetState) (obj : DimObj)
    (hW : st.options.minWidth ≤ st.options.maxWidth)
    (hH : st.options.minHeight ≤ st.options.maxHeight) :
    st.options.minWidth ≤ (setDimension st obj).dimension.width ∧
    (setDimension st obj).dimension.width ≤ st.options.maxWidth ∧
    st.options.minHeight ≤ (setDimension st obj).dimension.height ∧
    (setDimension st obj).dimension.height ≤ st.options.maxHeight := by
  refine ⟨?_, ?_, ?_, ?_⟩
  · exact le_min (le_max_right _ _) hW
  · exact min_le_right _ _
  · exact le_min (le_max_right _ _) hH
  · exact min_le_right _ _

/-- C4 witness (an input far beyond the bounds on both axes). -/
theorem c4_setDimension_clamped_witness :
    (mkState { left := some 0, top := some 0, right := none, bottom := none }
        { width := 100, height := 100 } 1024 768).options.minWidth ≤
      (setDimension
        (mkState { left := some 0, top := some 0, right := none, bottom := none }
          { width := 100, height := 100 } 1024 768)
        { width := 100000, height := -3 }).dimension.width ∧
    (setDimension
        (mkState { left := some 0, top := some 0, right := none, bottom := none }
          { width := 100, height := 100 } 1024 768)
        { width := 100000, height := -3 }).dimension.width ≤
      (mkState { left := some 0, top := some 0, right := none, bottom := none }
        { width := 100, height := 100 } 1024 768).options.maxWidth ∧
    (mkState { left := some 0, top := some 0, right := none, bottom := none }
        { width := 100, height := 100 } 1024 768).options.minHeight ≤
      (setDimension
        (mkState { left := some 0, top := some 0, right := none, bottom := none }
          { width := 100, height := 100 } 1024 768)
        { width := 100000, height := -3 }).dimension.height ∧
    (setDimension
        (mkState { left := some 0, top := some 0, right := none, bottom := none }
          { width := 100, height := 100 } 1024 768)
        { width := 100000, height := -3 }).dimension.height ≤
      (mkState { left := some 0, top := some 0, right := none, bottom := none }
        { width := 100, height := 100 } 1024 768).options.maxHeight :=
  c4_setDimension_clamped
    (mkState { left := some 0, top := some 0, right := none, bottom := none }
      { width := 100, height := 100 } 1024 768)
    { width := 100000, height := -3 } (by decide) (by decide)

/-- C5.  During a resize drag with pointer delta `(dx, dy)` from the
drag origin, the proposed dimension before clamping is
`width = baselineWidth + dx` in all cases, and
`height = baselineHeight + dx` when `options.aspect` is set,
`baselineHeight + dy` otherwise, where the baseline is the dimension
snapshot captured at pointer-down. -/
theorem c5_resize_proposal (st : WidgetState) (p0 p1 : Point) :
    mouseMoveObj st (mouseDownSession st p0) p1 "resize" =
      MoveObj.resize
        { width := (getDimension st).width + (p1.x - p0.x)
          height :=
            if st.options.aspect ≠ 0 then (getDimension st).height + (p1.x - p0.x)
            else (getDimension st).height + (p1.y - p0.y) } := by
  simp only [mouseMoveObj, mouseDownSession, getDimension]
  rw [if_neg (by decide), ite_self]

/-- C6 counterexample.  A widget anchored `right = 500, bottom = 400` in
a 1024×768 viewport with dimension 200×150 normalizes to
`left = 324, top = 218`; re-sticking that point anchors it by
`left`/`top` (both anchor points are short of the viewport midlines), so
the original `right`/`bottom` values are NOT recovered. -/
theorem c6_counterexample :
    (mkState { left := none, top := none, right := some 500, bottom := some 400 }
        { width := 200, height := 150 } 1024 768).position.right = some 500 ∧
    (mkState { left := none, top := none, right := some 500, bottom := some 400 }
        { width := 200, height := 150 } 1024 768).position.bottom = some 400 ∧
    (setPosition
        (mkState { left := none, top := none, right := some 500, bottom := some 400 }
          { width := 200, height := 150 } 1024 768)
        (some (getNormalizedPosition
          (mkState { left := none, top := none, right := some 500, bottom := some 400 }
            { width := 200, height := 150 } 1024 768)))
        true).position =
      { left := some 324, top := some 218, right := none, bottom := none } := by
  refine ⟨rfl, rfl, ?_⟩
  rw [setPosition_stick_eq]
  norm_num [mkState, getNormalizedPosition, truthy, toNum]

/-- C6 (amended).  For a right/bottom-anchored position whose anchors
are truthy (non-zero) and whose anchor points would still stick
(`right + width/2 ≤ windowWidth/2` and
`bottom + height/2 ≤ windowHeight/2`), normalizing with
`_getNormalizedPosition` (a pure function of the state in this
embedding — the stored position is not mutated) and re-sticking with
`_setPosition(·, true)` under unchanged window and widget dimensions
yields back exactly the original `right`/`bottom` anchor values. -/
theorem c6_round_trip (st : WidgetState) (r b : ℚ)
    (hr : st.position.right = some r) (hb : st.position.bottom = some b)
    (hr0 : r ≠ 0) (hb0 : b ≠ 0)
    (hrc : r + st.dimension.width / 2 ≤ st.windowWidth / 2)
    (hbc : b + st.dimension.height / 2 ≤ st.windowHeight / 2) :
    (setPosition st (some (getNormalizedPosition st)) true).position =
      { left := none, top := none, right := some r, bottom := some b } := by
  have hn : getNormalizedPosition st =
      { left := some (st.windowWidth - r - st.dimension.width)
        top := some (st.windowHeight - b - st.dimension.height) } := by
    simp [getNormalizedPosition, truthy, hr, hb, hr0, hb0, toNum]
  rw [hn, setPosition_stick_eq]
  have h1 : st.windowWidth - r - st.dimension.width
      + st.dimension.width / 2 ≥ st.windowWidth / 2 := by linarith
  have h2 : st.windowHeight - b - st.dimension.height
      + st.dimension.height / 2 ≥ st.windowHeight / 2 := by linarith
  simp only [Option.getD_some, toNum, if_pos h1, if_pos h2, Position.mk.injEq]
  refine ⟨trivial, trivial, ?_, ?_⟩ <;> · congr 1; ring

/-- C6 witness. -/
theorem c6_round_trip_witness :
    (setPosition
        (mkState { left := none, top := none, right := some 50, bottom := some 40 }
          { width := 200, height := 150 } 1024 768)
        (some (getNormalizedPosition
          (mkState { left := none, top := none, right := some 50, bottom := some 40 }
            { width := 200, height := 150 } 1024 768)))
        true).position =
      { left := none, top := none, right := some 50, bottom := some 40 } :=
  c6_round_trip
    (mkState { left := none, top := none, right := some 50, bottom := some 40 }
      { width := 200, height := 150 } 1024 768)
    50 40 rfl rfl (by norm_num) (by norm_num) (by norm_num [mkState]) (by norm_num [mkState])

lemma hideEnvelope_position (st : WidgetState) :
    (hideEnvelope st).position = st.position := by
  unfold hideEnvelope
  split_ifs <;> rfl

lemma onMouseUp_move_position (st : WidgetState) (now : ℚ) :
    (onMouseUp st now "move").position = st.position := by
  show (hideEnvelope
      { st with isManipulating := false, resizeTimeout := none, active := false }).position
    = st.position
  rw [hideEnvelope_position]

/-- C7 counterexample.  After a move drag that stuck the widget to the
right half (viewport 1024×768, dimension 200×150, moved to
`left = 600`), the record passed to `settings.set` has `left = null`:
it is NOT true that all six persisted fields are numeric. -/
theorem c7_counterexample :
    allNumeric
      (saveOptions
        (onMouseUp
          (onMouseMove
            (mkState { left := some 100, top := some 100, right := none, bottom := none }
              { width := 200, height := 150 } 1024 768)
            (MoveObj.move { left := some 600, top := some 100 }))
          1000 "move")) = false := by
  have h1 : (onMouseMove
      (mkState { left := some 100, top := some 100, right := none, bottom := none }
        { width := 200, height := 150 } 1024 768)
      (MoveObj.move { left := some 600, top := some 100 })).position =
      { left := none, top := some 100, right := some 224, bottom := none } := by
    show (setPosition _ _ true).position = _
    rw [setPosition_stick_eq]
    norm_num [mkState, toNum]
  simp only [allNumeric, saveOptions, onMouseUp_move_position, h1]
  rfl

/-- Helper for C7: a maximal run of pointer-ups each of which arrives
strictly less than 500 ms after the previous one produces exactly one
settings write, 500 ms after the last pointer-up, of the state left by
the last pointer-up. -/
lemma debounceWrites_coalesce (init : List (ℚ × WidgetState)) (t : ℚ)
    (st : WidgetState)
    (hch : List.Chain' (fun a b => b.1 - a.1 < 500) (init ++ [(t, st)])) :
    debounceWrites (init ++ [(t, st)]) = [(t + 500, saveOptions st)] := by
  induction init with
  | nil => rfl
  | cons hd tl ih =>
    rcases hd with ⟨t1, s1⟩
    cases tl with
    | nil =>
      simp only [List.cons_append, List.nil_append] at hch ⊢
      have hlt : t - t1 < 500 := (List.chain'_cons.mp hch).1
      show (if t1 + 500 ≤ t then [(t1 + 500, saveOptions s1)] else [])
          ++ debounceWrites [(t, st)] = _
      rw [if_neg (by linarith)]
      rfl
    | cons hd2 tl2 =>
      rcases hd2 with ⟨t2, s2⟩
      simp only [List.cons_append] at hch ⊢
      have hlt : t2 - t1 < 500 := (List.chain'_cons.mp hch).1
      show (if t1 + 500 ≤ t2 then [(t1 + 500, saveOptions s1)] else [])
          ++ debounceWrites ((t2, s2) :: (tl2 ++ [(t, st)])) = _
      rw [if_neg (by linarith)]
      rw [List.nil_append]
      exact ih (List.chain'_cons.mp hch).2

/-- C7 (amended).  Every pointer-up replaces any pending save timer with
one firing 500 ms later; a run of pointer-ups separated by strictly less
than 500 ms therefore coalesces into a single settings write of the
final state, and the written record is taken field by field from the
current dimension and position — whose `left`/`top`/`right`/`bottom`
fields may be null (the inactive anchor of each axis is null after
sticking), not all numeric as originally claimed. -/
theorem c7_save_debounce :
    (∀ (st : WidgetState) (now : ℚ) (action : String),
      (onMouseUp st now action).saveTimeout = some (now + 500)) ∧
    (∀ (init : List (ℚ × WidgetState)) (t : ℚ) (st : WidgetState),
      List.Chain' (fun a b => b.1 - a.1 < 500) (init ++ [(t, st)]) →
      debounceWrites (init ++ [(t, st)]) = [(t + 500, saveOptions st)]) ∧
    (∀ st : WidgetState,
      saveOptions st =
        { width := st.dimension.width
          height := st.dimension.height
          left := st.position.left
          top := st.position.top
          right := st.position.right
          bottom := st.position.bottom }) :=
  ⟨fun _ _ _ => rfl, debounceWrites_coalesce, fun _ => rfl⟩

/-- C7 witness: three pointer-ups at 0, 100 and 300 ms coalesce into the
single write at 800 ms of the last state. -/
theorem c7_save_debounce_witness :
    debounceWrites
      [(0, mkState { left := some 10, top := some 10, right := none, bottom := none }
            { width := 100, height := 100 } 1024 768),
       (100, mkState { left := some 20, top := some 20, right := none, bottom := none }
            { width := 100, height := 100 } 1024 768),
       (300, mkState { left := some 30, top := some 30, right := none, bottom := none }
            { width := 100, height := 100 } 1024 768)] =
      [(300 + 500,
        saveOptions
          (mkState { left := some 30, top := some 30, right := none, bottom := none }
            { width := 100, height := 100 } 1024 768))] :=
  c7_save_debounce.2.1
    [(0, mkState { left := some 10, top := some 10, right := none, bottom := none }
          { width := 100, height := 100 } 1024 768),
     (100, mkState { left := some 20, top := some 20, right := none, bottom := none }
          { width := 100, height := 100 } 1024 768)]
    300
    (mkState { left := some 30, top := some 30, right := none, bottom := none }
      { width := 100, height := 100 } 1024 768)
    (by norm_num [List.chain'_cons])

/-- C2 (code evaluated at the failing inputs).  `_inited` computes
`fps = Math.min(frequency, 1)` — not `max` — so with the default
`frequency = 2` the interval is 1000 ms (one frame per second), not the
claimed ~500 ms, and with `frequency = 0` the interval is
`1000 / 0 = Infinity`, so the `elapsed > fpsInterval` guard is never
true and `onRender` never fires (the loop stalls permanently instead of
clamping up to 1 frame/sec). -/
theorem c2_min_frequency_bug :
    initedFps { DEFAULT_OPTIONS with frequency := 2 } = 1 ∧
    initedFpsInterval { DEFAULT_OPTIONS with frequency := 2 } = some 1000 ∧
    initedFpsInterval { DEFAULT_OPTIONS with frequency := 2 } ≠ some 500 ∧
    animateFires (initedFpsInterval { DEFAULT_OPTIONS with frequency := 2 }) 0 600
      = false ∧
    animateFires (initedFpsInterval { DEFAULT_OPTIONS with frequency := 2 }) 0 1001
      = true ∧
    initedFpsInterval { DEFAULT_OPTIONS with frequency := 0 } = none ∧
    animateFires (initedFpsInterval { DEFAULT_OPTIONS with frequency := 0 }) 0 1000000
      = false := by
  refine ⟨?_, ?_, ?_, ?_, ?_, ?_, ?_⟩ <;>
    norm_num [initedFps, initedFpsInterval, jsDiv, animateFires, DEFAULT_OPTIONS]

/-- C8.  `destroy()` clears the pending save debounce timer, invokes
`cancelAnimationFrame` exactly when `_requestId` is truthy (active) and
resets it to null, and nulls out the canvas, resize-handle, container
and drawing-context references; the function is total, and a second call
on the already-destroyed state performs the same assignments (cancelling
nothing, since the request id is already null) and returns the same
cleared state — so a repeated `destroy()` cannot throw. -/
theorem c8_destroy_teardown (st : WidgetState) :
    (destroy st).state.saveTimeout = none ∧
    (destroy st).cancelledFrame = truthyNat st.requestId ∧
    (destroy st).state.requestId = none ∧
    (destroy st).state.canvas = false ∧
    (destroy st).state.resize = false ∧
    (destroy st).state.element = false ∧
    (destroy st).state.context = false ∧
    destroy (destroy st).state =
      { state := (destroy st).state, cancelledFrame := false } :=
  ⟨rfl, rfl, rfl, rfl, rfl, rfl, rfl, rfl⟩

/-- C9.  `_updatePosition` gives a non-null `right` precedence over
`left` (which is styled `auto`) and a non-null `bottom` precedence over
`top`; the built-in defaults are `left = -1, right = -1, top = 0,
bottom = 0`, all non-null, so a widget constructed with no
caller-supplied options and no saved settings carries exactly that
position and renders anchored by `right = -1` and `bottom = 0`, not by
`left`/`top`. -/
theorem c9_default_far_edge_anchor :
    (construct {} {} 1024 768).position =
      { left := some (-1), top := some 0, right := some (-1), bottom := some 0 } ∧
    updatePosition (construct {} {} 1024 768).position =
      { left := StyleVal.auto, right := StyleVal.px (some (-1))
        top := StyleVal.auto, bottom := StyleVal.px (some 0) } ∧
    (∀ p : Position, p.right.isSome = true →
      (updatePosition p).left = StyleVal.auto ∧
      (updatePosition p).right = StyleVal.px p.right) ∧
    (∀ p : Position, p.bottom.isSome = true →
      (updatePosition p).top = StyleVal.auto ∧
      (updatePosition p).bottom = StyleVal.px p.bottom) := by
  refine ⟨rfl, rfl, ?_, ?_⟩ <;> · intro p hp; simp [updatePosition, hp]

/-- C9 witness. -/
theorem c9_default_far_edge_anchor_witness :
    (updatePosition { left := some 3, top := some 4, right := some 7, bottom := some 8 }).left
      = StyleVal.auto ∧
    (updatePosition { left := some 3, top := some 4, right := some 7, bottom := some 8 }).top
      = StyleVal.auto :=
  ⟨(c9_default_far_edge_anchor.2.2.1
      { left := some 3, top := some 4, right := some 7, bottom := some 8 } rfl).1,
   (c9_default_far_edge_anchor.2.2.2
      { left := some 3, top := some 4, right := some 7, bottom := some 8 } rfl).1⟩

/-- C10.  `_getNormalizedPosition` tests `right` and `bottom` by
truthiness, not by non-nullness: when the stored `right` is exactly 0
the horizontal coordinate is not resolved and the returned `left` is the
raw stored `left` field (null for a far-edge-anchored widget, rather
than `windowWidth - right - width`); analogously for `bottom = 0` and
`top`. -/
theorem c10_normalized_ignores_zero_anchor (st : WidgetState) :
    (st.position.right = some 0 →
      (getNormalizedPosition st).left = st.position.left) ∧
    (st.position.bottom = some 0 →
      (getNormalizedPosition st).top = st.position.top) := by
  constructor <;> · intro h; simp [getNormalizedPosition, truthy, h]

/-- C10 witness: a widget flush with the bottom-right corner
(`right = 0, bottom = 0`, `left`/`top` null) normalizes to
`left = null, top = null` — not to `1024 - 0 - 200` / `768 - 0 - 150`. -/
theorem c10_normalized_ignores_zero_anchor_witness :
    (getNormalizedPosition
      (mkState { left := none, top := none, right := some 0, bottom := some 0 }
        { width := 200, height := 150 } 1024 768)).left = none ∧
    (getNormalizedPosition
      (mkState { left := none, top := none, right := some 0, bottom := some 0 }
        { width := 200, height := 150 } 1024 768)).top = none :=
  ⟨(c10_normalized_ignores_zero_anchor
      (mkState { left := none, top := none, right := some 0, bottom := some 0 }
        { width := 200, height := 150 } 1024 768)).1 rfl,
   (c10_normalized_ignores_zero_anchor
      (mkState { left := none, top := none, right := some 0, bottom := some 0 }
        { width := 200, height := 150 } 1024 768)).2 rfl⟩

end CoreWMWidget
